import Mathlib

/-!
Verification of the ShakespeareGPT repository: a retrieval-augmented
question-answering system.  The repository ships the Next.js frontend
(src/frontend/pages/index.tsx); the FastAPI backend (main.py) is referenced
by the deployment guide but its code is not present, so the query pipeline
is modelled from the specification, while the frontend data model, the
plays list, the filter logic and the askQuestion handler are embedded
directly from index.tsx.

Similarity scores and vector components are modelled as integers: the
specification only constrains their linear order (descending ranking,
deterministic tie-breaks), which integers carry exactly.
-/

namespace ShakespeareGPT

/-! ### Data model, from src/frontend/pages/index.tsx lines 8 to 24 -/

/-- Embedding of the frontend interface Source (index.tsx lines 8 to 14):
index, play, act, scene_title, similarity and nothing else. -/
structure Source where
  index : Int
  play : String
  act : String
  scene_title : String
  similarity : Int
  deriving DecidableEq, Repr

/-- Embedding of the frontend interface AnswerResponse (index.tsx lines 16
to 19). -/
structure AnswerResponse where
  answer : String
  sources : List Source
  deriving DecidableEq, Repr

/-- Embedding of the frontend interface Play (index.tsx lines 21 to 24). -/
structure Play where
  title : String
  category : String
  deriving DecidableEq, Repr

/-! ### Backend query pipeline, modelled from the spec

The backend main.py is not part of src/, so every definition in this
section is written from the specification text (sections 4.4 to 4.6, 6, 7
and 8 of spec.md). -/

/-- Modelled from the spec: the persisted record schema of the missing
vector index, per section 6 of the spec. -/
structure ChunkRecord where
  id : Nat
  text : String
  vector : List Int
  play : String
  act : String
  scene_title : String
  scene_ordinal : Nat
  chunk_ordinal : Nat
  deriving DecidableEq, Repr

/-- Modelled from the spec: inner-product similarity between a query
vector and a stored vector (spec section 4.4). -/
def dot : List Int → List Int → Int
  | [], _ => 0
  | _, [] => 0
  | x :: xs, y :: ys => x * y + dot xs ys

/-- Modelled from the spec: a (chunk, similarity score) pair returned by
the missing vector index (spec section 3, RetrievedResult). -/
structure RetrievedResult where
  chunk : ChunkRecord
  score : Int
  deriving DecidableEq, Repr

/-- Modelled from the spec: the ranking order of the missing index,
descending similarity with ties broken by chunk id (spec section 4.4). -/
def rankBefore (a b : RetrievedResult) : Prop :=
  b.score < a.score ∨ (b.score = a.score ∧ a.chunk.id ≤ b.chunk.id)

instance : DecidableRel rankBefore := fun a b => by
  unfold rankBefore; infer_instance

instance : IsTotal RetrievedResult rankBefore := by
  constructor
  intro a b
  rcases lt_trichotomy a.score b.score with h | h | h
  · exact Or.inr (Or.inl h)
  · rcases Nat.le_total a.chunk.id b.chunk.id with h2 | h2
    · exact Or.inl (Or.inr ⟨h.symm, h2⟩)
    · exact Or.inr (Or.inr ⟨h, h2⟩)
  · exact Or.inl (Or.inl h)

instance : IsTrans RetrievedResult rankBefore := by
  constructor
  intro a b c hab hbc
  rcases hab with h1 | ⟨h1, h1i⟩ <;> rcases hbc with h2 | ⟨h2, h2i⟩
  · exact Or.inl (h2.trans h1)
  · exact Or.inl (h2 ▸ h1)
  · exact Or.inl (h1 ▸ h2)
  · exact Or.inr ⟨h2.trans h1, h1i.trans h2i⟩

/-- Modelled from the spec: metadata filtering of the missing vector
index; a filter restricts candidates to chunks whose play matches exactly
(spec section 4.4). -/
def matchesFilter (f : Option String) (c : ChunkRecord) : Bool :=
  match f with
  | none => true
  | some p => c.play == p

/-- Modelled from the spec: scoring one candidate chunk against the query
vector. -/
def scoreChunk (v : List Int) (c : ChunkRecord) : RetrievedResult :=
  ⟨c, dot v c.vector⟩

/-- Modelled from the spec: the query operation of the missing vector
index.  Filtering is applied before ranking; results are ordered by
descending similarity with ties broken by chunk id; at most k results are
returned (spec section 4.4). -/
def indexQuery (store : List ChunkRecord) (v : List Int) (k : Nat)
    (f : Option String) : List RetrievedResult :=
  (List.insertionSort rankBefore
    ((store.filter (matchesFilter f)).map (scoreChunk v))).take k

/-- Request body of POST /answer (spec section 6): question, optional k
defaulting to 3, and a filters object modelled as key-value pairs. -/
structure AnswerRequest where
  question : String
  k : Option Int
  filters : List (String × String)
  deriving DecidableEq, Repr

/-- Effective k of a request: the provided value, or the default 3 (spec
section 6). -/
def effK (req : AnswerRequest) : Int :=
  req.k.getD 3

/-- The play restriction carried by the filters object, when present. -/
def playFilter (filters : List (String × String)) : Option String :=
  filters.lookup "play"

/-- The only filter key the missing backend accepts (spec section 6). -/
def validFilterKeys : List String := ["play"]

/-- Dropping leading whitespace characters. -/
def dropLeadingWs : List Char → List Char
  | [] => []
  | c :: cs => if c.isWhitespace then dropLeadingWs cs else c :: cs

/-- Whitespace trimming at both ends, the semantics of the JavaScript
String.trim used by the frontend and of the stripping applied by the
modelled backend validation. -/
def jsTrim (s : String) : String :=
  ⟨(dropLeadingWs (dropLeadingWs s.data).reverse).reverse⟩

/-- Modelled from the spec: request validation of the missing backend,
performed before any embedding cost (spec sections 4.5, 6 and 7).  Returns
a human-readable detail message on failure. -/
def validationError (kCeil : Int) (req : AnswerRequest) : Option String :=
  if jsTrim req.question = "" then some "question must be a non-empty string"
  else if effK req ≤ 0 then some "k must be a positive integer"
  else if kCeil < effK req then some "k exceeds the configured maximum"
  else
    match req.filters.find? (fun kv => !(validFilterKeys.contains kv.1)) with
    | some kv => some ("unknown filter key: " ++ kv.1)
    | none => none

/-- Modelled from the spec: the citation marker tagging the passage at
rank position i in the assembled context (spec sections 4.6 and 6). -/
def citationMarker (i : Nat) : Int :=
  (i : Int) + 1

/-- Modelled from the spec: the textual tag carrying a citation marker in
the assembled context block. -/
def passageTag (i : Nat) : String :=
  "[" ++ toString (citationMarker i) ++ "]"

/-- Modelled from the spec: context assembly, each passage tagged with its
citation marker, starting at rank position i. -/
def assembleContextFrom : Nat → List RetrievedResult → String
  | _, [] => ""
  | i, r :: rs =>
    passageTag i ++ " " ++ r.chunk.text ++ "\n" ++ assembleContextFrom (i + 1) rs

/-- Modelled from the spec: the bounded context block passed to the
generation model (spec section 4.6). -/
def assembleContext (rs : List RetrievedResult) : String :=
  assembleContextFrom 0 rs

/-- Modelled from the spec: the source entry derived from the retrieved
result at rank position i (spec sections 4.6 and 6). -/
def mkSource (i : Nat) (r : RetrievedResult) : Source :=
  { index := citationMarker i
    play := r.chunk.play
    act := r.chunk.act
    scene_title := r.chunk.scene_title
    similarity := r.score }

/-- Modelled from the spec: the sources list derived from retrieved
results, in rank order, starting at rank position i. -/
def mkSourcesFrom : Nat → List RetrievedResult → List Source
  | _, [] => []
  | i, r :: rs => mkSource i r :: mkSourcesFrom (i + 1) rs

/-- Modelled from the spec: the sources field of a successful response. -/
def mkSources (rs : List RetrievedResult) : List Source :=
  mkSourcesFrom 0 rs

/-- Modelled from the spec: the fixed answer returned when no chunk
matches the query (spec sections 4.6 and 8). -/
def noContextAnswer : String :=
  "No relevant context found."

/-- Modelled from the spec: the external collaborators of the missing
backend, with fixed responses.  The embedding and generation oracles
return an error exactly when the corresponding stage fails after its
retry budget; indexUp is false exactly when the index stage fails. -/
structure Oracles where
  embed : String → Except Unit (List Int)
  indexUp : Bool
  store : List ChunkRecord
  generate : String → String → Except Unit String

/-- An HTTP response of the missing backend: a status code, an optional
success body, and a detail message for errors. -/
structure HttpResponse where
  status : Nat
  body : Option AnswerResponse
  detail : String
  deriving DecidableEq, Repr

/-- External calls performed while handling one request: embedding calls
and generation-model calls. -/
structure Trace where
  embedCalls : Nat
  genCalls : Nat
  deriving DecidableEq, Repr

/-- Modelled from the spec: the answer-synthesis step of the missing
backend (spec section 4.6).  An empty result list is a terminal case
returning the fixed answer without invoking the generation model;
otherwise the generation model is invoked on the assembled context and
the retained passages become the sources, in rank order. -/
def synthesizeStep (gen : String → String → Except Unit String)
    (question : String) (results : List RetrievedResult) :
    HttpResponse × Trace :=
  match results with
  | [] => (⟨200, some ⟨noContextAnswer, []⟩, ""⟩, ⟨1, 0⟩)
  | _ :: _ =>
    match gen (assembleContext results) question with
    | .error _ => (⟨500, none, "generation service unavailable"⟩, ⟨1, 1⟩)
    | .ok ans => (⟨200, some ⟨ans, mkSources results⟩, ""⟩, ⟨1, 1⟩)

/-- Modelled from the spec: the POST /answer handler of the missing
backend (spec sections 4.5, 4.6, 6 and 7).  Validation first, then
embedding, then index query, then synthesis. -/
def answerEndpoint (kCeil : Int) (o : Oracles) (req : AnswerRequest) :
    HttpResponse × Trace :=
  match validationError kCeil req with
  | some msg => (⟨422, none, msg⟩, ⟨0, 0⟩)
  | none =>
    match o.embed req.question with
    | .error _ => (⟨500, none, "embedding service unavailable"⟩, ⟨1, 0⟩)
    | .ok v =>
      if o.indexUp then
        synthesizeStep o.generate req.question
          (indexQuery o.store v (effK req).toNat (playFilter req.filters))
      else (⟨500, none, "vector index unavailable"⟩, ⟨1, 0⟩)

/-- Modelled from the spec: the GET /plays handler of the missing backend,
a read-only snapshot of the play metadata derived at ingestion time (spec
sections 6 and 9). -/
def getPlays (ingested : List Play) : List Play :=
  ingested.dedup

/-! ### Frontend, embedded from src/frontend/pages/index.tsx -/

/-- The hand-maintained plays array of the frontend (index.tsx lines 39 to
78). -/
def plays : List Play :=
  [ ⟨"All\x27s Well That Ends Well", "Comedy"⟩,
    ⟨"Antony and Cleopatra", "Tragedy"⟩,
    ⟨"As You Like It", "Comedy"⟩,
    ⟨"The Comedy of Errors", "Comedy"⟩,
    ⟨"Coriolanus", "Tragedy"⟩,
    ⟨"Cymbeline", "Tragedy"⟩,
    ⟨"Hamlet", "Tragedy"⟩,
    ⟨"Henry IV, Part 1", "History"⟩,
    ⟨"Henry IV, Part 2", "History"⟩,
    ⟨"Henry V", "History"⟩,
    ⟨"Henry VI, Part 1", "History"⟩,
    ⟨"Henry VI, Part 2", "History"⟩,
    ⟨"Henry VI, Part 3", "History"⟩,
    ⟨"Henry VIII", "History"⟩,
    ⟨"Julius Caesar", "Tragedy"⟩,
    ⟨"King John", "History"⟩,
    ⟨"King Lear", "Tragedy"⟩,
    ⟨"Love\x27s Labour\x27s Lost", "Comedy"⟩,
    ⟨"Macbeth", "Tragedy"⟩,
    ⟨"Measure for Measure", "Comedy"⟩,
    ⟨"The Merchant of Venice", "Comedy"⟩,
    ⟨"The Merry Wives of Windsor", "Comedy"⟩,
    ⟨"A Midsummer Night\x27s Dream", "Comedy"⟩,
    ⟨"Much Ado About Nothing", "Comedy"⟩,
    ⟨"Othello", "Tragedy"⟩,
    ⟨"Pericles, Prince of Tyre", "Tragedy"⟩,
    ⟨"Richard II", "History"⟩,
    ⟨"Richard III", "History"⟩,
    ⟨"Romeo and Juliet", "Tragedy"⟩,
    ⟨"The Taming of the Shrew", "Comedy"⟩,
    ⟨"The Tempest", "Comedy"⟩,
    ⟨"Timon of Athens", "Tragedy"⟩,
    ⟨"Titus Andronicus", "Tragedy"⟩,
    ⟨"Troilus and Cressida", "Tragedy"⟩,
    ⟨"Twelfth Night", "Comedy"⟩,
    ⟨"The Two Gentlemen of Verona", "Comedy"⟩,
    ⟨"The Two Noble Kinsmen", "Tragedy"⟩,
    ⟨"The Winter\x27s Tale", "Comedy"⟩ ]

/-- The filteredPlays expression of the frontend (index.tsx lines 80 to
82): the full list, or only the tragedies, depending on the toggle. -/
def filteredPlays (showTragediesOnly : Bool) : List Play :=
  if showTragediesOnly then plays.filter (fun play => play.category == "Tragedy")
  else plays

/-- The component state touched by askQuestion (index.tsx lines 27 to
31). -/
structure UiState where
  answer : String
  sources : List Source
  loading : Bool
  error : String
  deriving DecidableEq, Repr

/-- The shape of an axios failure as discriminated by the catch block of
askQuestion (index.tsx lines 109 to 120): a server response with an
optional detail field and a status text, a request that got no response,
or any other error with an optional message. -/
inductive ApiError where
  | response (detail : Option String) (statusText : String)
  | request
  | other (message : Option String)
  deriving DecidableEq, Repr

/-- Embedding of the falsy-coalescing expression a || b of index.tsx: an
absent or empty string falls through to the fallback. -/
def orFallback (a : Option String) (b : String) : String :=
  match a with
  | some s => if s = "" then b else s
  | none => b

/-- The error message set by the catch block of askQuestion (index.tsx
lines 111 to 120). -/
def errorMessage : ApiError → String
  | .response detail statusText =>
      "Server Error: " ++ orFallback detail statusText
  | .request =>
      "Network Error: Unable to connect to the server. Please check your internet connection."
  | .other message =>
      "Error: " ++ orFallback message "An unexpected error occurred."

/-- The outcome of the axios POST awaited by askQuestion: a parsed
AnswerResponse, or a thrown error. -/
inductive ApiOutcome where
  | ok (data : AnswerResponse)
  | err (e : ApiError)
  deriving DecidableEq, Repr

/-- An HTTP request issued by the frontend. -/
structure HttpRequest where
  method : String
  path : String
  payload : AnswerRequest
  deriving DecidableEq, Repr

/-- The request payload built by askQuestion (index.tsx lines 93 to 103):
the question, k fixed at 5, and a play filter exactly when a play is
selected. -/
def requestPayload (question : String) (selectedPlay : Option Play) :
    AnswerRequest :=
  { question := question
    k := some 5
    filters :=
      match selectedPlay with
      | some p => [("play", p.title)]
      | none => [] }

/-- Embedding of askQuestion (index.tsx lines 84 to 124) as a state
transition: given the question, the selected play, the outcome the awaited
POST would have, and the state before the call, it returns the state after
the call finishes together with the request issued, if any.  An empty
trimmed question returns before any request; otherwise the handler clears
answer, sources and error, issues exactly one POST to /answer, stores the
data on success or an error message on failure, and always ends with
loading false. -/
def askQuestion (question : String) (selectedPlay : Option Play)
    (outcome : ApiOutcome) (st : UiState) : UiState × Option HttpRequest :=
  if jsTrim question = "" then (st, none)
  else
    let req : HttpRequest :=
      ⟨"POST", "/answer", requestPayload question selectedPlay⟩
    match outcome with
    | .ok data =>
      ({ answer := data.answer, sources := data.sources,
         loading := false, error := "" }, some req)
    | .err e =>
      ({ answer := "", sources := [],
         loading := false, error := errorMessage e }, some req)

/-! ### Helper lemmas -/

theorem rankBefore_score_le {a b : RetrievedResult} (h : rankBefore a b) :
    b.score ≤ a.score := by
  rcases h with h | ⟨h, _⟩
  · exact le_of_lt h
  · exact le_of_eq h

theorem rankBefore_antisymm_id {a b : RetrievedResult}
    (hab : rankBefore a b) (hba : rankBefore b a) : a.chunk.id = b.chunk.id := by
  rcases hab with h1 | ⟨h1, h1i⟩ <;> rcases hba with h2 | ⟨h2, h2i⟩
  · exact absurd (h1.trans h2) (lt_irrefl _)
  · exact absurd h1 (h2 ▸ lt_irrefl _)
  · exact absurd h2 (h1 ▸ lt_irrefl _)
  · exact Nat.le_antisymm h1i h2i

theorem indexQuery_pairwise (store : List ChunkRecord) (v : List Int)
    (k : Nat) (f : Option String) :
    (indexQuery store v k f).Pairwise rankBefore :=
  (List.sorted_insertionSort rankBefore _).sublist (List.take_sublist _ _)

theorem indexQuery_mem {store : List ChunkRecord} {v : List Int} {k : Nat}
    {f : Option String} {r : RetrievedResult} (h : r ∈ indexQuery store v k f) :
    ∃ c, c ∈ store ∧ matchesFilter f c = true ∧ r = scoreChunk v c := by
  unfold indexQuery at h
  have h2 := List.mem_of_mem_take h
  have h3 := (List.perm_insertionSort rankBefore _).mem_iff.mp h2
  obtain ⟨c, hc, hr⟩ := List.mem_map.mp h3
  obtain ⟨hcs, hcf⟩ := List.mem_filter.mp hc
  exact ⟨c, hcs, hcf, hr.symm⟩

theorem indexQuery_length (store : List ChunkRecord) (v : List Int)
    (k : Nat) (f : Option String) :
    (indexQuery store v k f).length =
      min k (store.filter (matchesFilter f)).length := by
  unfold indexQuery
  rw [List.length_take, (List.perm_insertionSort rankBefore _).length_eq,
    List.length_map]

theorem indexQuery_of_filter_empty {store : List ChunkRecord}
    {f : Option String} (h : store.filter (matchesFilter f) = [])
    (v : List Int) (k : Nat) : indexQuery store v k f = [] := by
  unfold indexQuery
  rw [h]
  simp

theorem mkSourcesFrom_length (i : Nat) (rs : List RetrievedResult) :
    (mkSourcesFrom i rs).length = rs.length := by
  induction rs generalizing i with
  | nil => rfl
  | cons r rs ih => simp [mkSourcesFrom, ih]

theorem mkSourcesFrom_map_similarity (i : Nat) (rs : List RetrievedResult) :
    (mkSourcesFrom i rs).map Source.similarity =
      rs.map RetrievedResult.score := by
  induction rs generalizing i with
  | nil => rfl
  | cons r rs ih => simp [mkSourcesFrom, mkSource, ih]

theorem mkSourcesFrom_map_index (i : Nat) (rs : List RetrievedResult) :
    (mkSourcesFrom i rs).map Source.index =
      (List.range rs.length).map (fun j => citationMarker (i + j)) := by
  induction rs generalizing i with
  | nil => rfl
  | cons r rs ih =>
    rw [List.length_cons, List.range_succ_eq_map]
    simp only [mkSourcesFrom, List.map_cons, List.map_map, mkSource, ih]
    refine congrArg₂ _ (by simp) ?_
    apply List.map_congr_left
    intro j _
    simp only [Function.comp_apply, citationMarker]
    omega

theorem mem_mkSourcesFrom {s : Source} {i : Nat} {rs : List RetrievedResult}
    (h : s ∈ mkSourcesFrom i rs) : ∃ j r, r ∈ rs ∧ s = mkSource j r := by
  induction rs generalizing i with
  | nil => simp [mkSourcesFrom] at h
  | cons r rs ih =>
    simp only [mkSourcesFrom, List.mem_cons] at h
    rcases h with h | h
    · exact ⟨i, r, List.mem_cons_self _ _, h⟩
    · obtain ⟨j, r2, hr2, hs⟩ := ih h
      exact ⟨j, r2, List.mem_cons_of_mem _ hr2, hs⟩

theorem mkSources_pairwise_desc {rs : List RetrievedResult}
    (h : rs.Pairwise rankBefore) :
    (mkSources rs).Pairwise (fun s t => t.similarity ≤ s.similarity) := by
  have h1 : rs.Pairwise (fun a b => b.score ≤ a.score) :=
    h.imp rankBefore_score_le
  have h2 : ((mkSources rs).map Source.similarity).Pairwise
      (fun x y => y ≤ x) := by
    rw [mkSources, mkSourcesFrom_map_similarity]
    exact (List.pairwise_map).mpr h1
  exact (List.pairwise_map).mp h2

theorem synthesizeStep_status_200 {gen : String → String → Except Unit String}
    {q : String} {results : List RetrievedResult}
    (h : (synthesizeStep gen q results).1.status = 200) :
    (results = [] ∧
      (synthesizeStep gen q results).1.body = some ⟨noContextAnswer, []⟩) ∨
    (results ≠ [] ∧ ∃ ans, gen (assembleContext results) q = Except.ok ans ∧
      (synthesizeStep gen q results).1.body = some ⟨ans, mkSources results⟩) := by
  cases results with
  | nil => exact Or.inl ⟨rfl, rfl⟩
  | cons r rs =>
    refine Or.inr ⟨by simp, ?_⟩
    cases hg : gen (assembleContext (r :: rs)) q with
    | error e =>
      unfold synthesizeStep at h
      rw [hg] at h
      simp at h
    | ok ans =>
      refine ⟨ans, rfl, ?_⟩
      unfold synthesizeStep
      rw [hg]

theorem answerEndpoint_status_200 {kCeil : Int} {o : Oracles}
    {req : AnswerRequest}
    (h : (answerEndpoint kCeil o req).1.status = 200) :
    ∃ v, validationError kCeil req = none ∧
      o.embed req.question = Except.ok v ∧ o.indexUp = true ∧
      (answerEndpoint kCeil o req).1 =
        (synthesizeStep o.generate req.question
          (indexQuery o.store v (effK req).toNat (playFilter req.filters))).1 := by
  unfold answerEndpoint at h ⊢
  cases hval : validationError kCeil req with
  | some msg => rw [hval] at h; simp at h
  | none =>
    rw [hval] at h
    cases hemb : o.embed req.question with
    | error e => rw [hemb] at h; simp at h
    | ok v =>
      rw [hemb] at h
      cases hup : o.indexUp with
      | false => rw [hup] at h; simp at h
      | true => exact ⟨v, rfl, rfl, rfl, by simp⟩

/-! ### Claims -/

/-- C1: for every successful call to POST /answer, the 200 response body
is an AnswerResponse, an object with an answer string and a sources list
whose entries each carry exactly the fields index, play, act, scene_title
and similarity: every entry is mkSource applied to a rank position and a
retrieved result. -/
theorem c1_success_response_shape (kCeil : Int) (o : Oracles)
    (req : AnswerRequest)
    (h : (answerEndpoint kCeil o req).1.status = 200) :
    ∃ body : AnswerResponse,
      (answerEndpoint kCeil o req).1.body = some body ∧
      ∃ rs : List RetrievedResult, body.sources = mkSources rs ∧
        ∀ s ∈ body.sources, ∃ i r, s = mkSource i r := by
  obtain ⟨v, hval, hemb, hup, heq⟩ := answerEndpoint_status_200 h
  rw [heq] at h ⊢
  rcases synthesizeStep_status_200 h with ⟨hres, hbody⟩ | ⟨hne, ans, hg, hbody⟩
  · exact ⟨⟨noContextAnswer, []⟩, hbody, [], rfl, by simp⟩
  · refine ⟨⟨ans, mkSources _⟩, hbody, _, rfl, ?_⟩
    intro s hs
    obtain ⟨j, r, _, hsr⟩ := mem_mkSourcesFrom hs
    exact ⟨j, r, hsr⟩

/-- Witness for C1: a concrete successful run over a one-chunk store. -/
theorem c1_success_response_shape_witness :
    (answerEndpoint 10
        ⟨fun _ => Except.ok [1, 1], true,
          [⟨1, "To be or not to be.", [1, 2], "Hamlet", "Act 1", "Scene 1", 1, 1⟩],
          fun _ _ => Except.ok "an answer"⟩
        ⟨"q", some 2, []⟩).1.status = 200 ∧
    ∃ body : AnswerResponse,
      (answerEndpoint 10
        ⟨fun _ => Except.ok [1, 1], true,
          [⟨1, "To be or not to be.", [1, 2], "Hamlet", "Act 1", "Scene 1", 1, 1⟩],
          fun _ _ => Except.ok "an answer"⟩
        ⟨"q", some 2, []⟩).1.body = some body ∧
      ∃ rs : List RetrievedResult, body.sources = mkSources rs ∧
        ∀ s ∈ body.sources, ∃ i r, s = mkSource i r :=
  ⟨by decide, c1_success_response_shape 10 _ _ (by decide)⟩

/-- C2: for every POST /answer response, the sources list is ordered by
descending similarity, and the index field of the source at rank position
j is the citation marker of position j used by the assembled context. -/
theorem c2_sources_ordered_and_cited (kCeil : Int) (o : Oracles)
    (req : AnswerRequest)
    (h : (answerEndpoint kCeil o req).1.status = 200) :
    ∃ body : AnswerResponse,
      (answerEndpoint kCeil o req).1.body = some body ∧
      body.sources.Pairwise (fun s t => t.similarity ≤ s.similarity) ∧
      body.sources.map Source.index =
        (List.range body.sources.length).map citationMarker := by
  obtain ⟨v, hval, hemb, hup, heq⟩ := answerEndpoint_status_200 h
  rw [heq] at h ⊢
  rcases synthesizeStep_status_200 h with ⟨hres, hbody⟩ | ⟨hne, ans, hg, hbody⟩
  · exact ⟨⟨noContextAnswer, []⟩, hbody, by simp, by simp⟩
  · refine ⟨⟨ans, mkSources _⟩, hbody,
      mkSources_pairwise_desc (indexQuery_pairwise _ _ _ _), ?_⟩
    show (mkSources _).map Source.index = _
    simp only [mkSources, mkSourcesFrom_map_index, mkSourcesFrom_length]
    simp

/-- Witness for C2: the concrete run of the C1 witness, with two chunks
so that the ordering is not vacuous. -/
theorem c2_sources_ordered_and_cited_witness :
    (answerEndpoint 10
        ⟨fun _ => Except.ok [1], true,
          [⟨1, "first passage", [2], "Hamlet", "Act 1", "Scene 1", 1, 1⟩,
           ⟨2, "second passage", [5], "Macbeth", "Act 2", "Scene 2", 2, 1⟩],
          fun _ _ => Except.ok "an answer"⟩
        ⟨"q", some 2, []⟩).1.status = 200 ∧
    ∃ body : AnswerResponse,
      (answerEndpoint 10
        ⟨fun _ => Except.ok [1], true,
          [⟨1, "first passage", [2], "Hamlet", "Act 1", "Scene 1", 1, 1⟩,
           ⟨2, "second passage", [5], "Macbeth", "Act 2", "Scene 2", 2, 1⟩],
          fun _ _ => Except.ok "an answer"⟩
        ⟨"q", some 2, []⟩).1.body = some body ∧
      body.sources.Pairwise (fun s t => t.similarity ≤ s.similarity) ∧
      body.sources.map Source.index =
        (List.range body.sources.length).map citationMarker :=
  ⟨by decide, c2_sources_ordered_and_cited 10 _ _ (by decide)⟩

/-- C3: for every successful query carrying the play filter P, every
returned source has play equal to P, and the number of returned sources
is the minimum of the effective k and the number of stored chunks whose
metadata matches P. -/
theorem c3_filter_correctness (kCeil : Int) (o : Oracles)
    (req : AnswerRequest) (P : String)
    (hfil : playFilter req.filters = some P)
    (h : (answerEndpoint kCeil o req).1.status = 200) :
    ∃ body : AnswerResponse,
      (answerEndpoint kCeil o req).1.body = some body ∧
      (∀ s ∈ body.sources, s.play = P) ∧
      body.sources.length =
        min (effK req).toNat
          (o.store.filter (matchesFilter (some P))).length := by
  obtain ⟨v, hval, hemb, hup, heq⟩ := answerEndpoint_status_200 h
  rw [heq] at h ⊢
  rw [hfil] at h ⊢
  rcases synthesizeStep_status_200 h with ⟨hres, hbody⟩ | ⟨hne, ans, hg, hbody⟩
  · refine ⟨⟨noContextAnswer, []⟩, hbody, by simp, ?_⟩
    have hzero :
        min (effK req).toNat
          (o.store.filter (matchesFilter (some P))).length = 0 := by
      rw [← indexQuery_length o.store v (effK req).toNat (some P), hres]
      rfl
    simp [hzero]
  · refine ⟨⟨ans, mkSources _⟩, hbody, ?_, ?_⟩
    · intro s hs
      obtain ⟨j, r, hr, hsr⟩ := mem_mkSourcesFrom hs
      obtain ⟨c, _, hcf, hcr⟩ := indexQuery_mem hr
      have hplay : r.chunk.play = P := by
        rw [hcr]
        simpa [scoreChunk, matchesFilter] using hcf
      rw [hsr]
      simpa [mkSource] using hplay
    · show (mkSources _).length = _
      rw [mkSources, mkSourcesFrom_length, indexQuery_length]

/-- Witness for C3: a filtered query over a two-play store returning only
the Hamlet chunk. -/
theorem c3_filter_correctness_witness :
    playFilter [("play", "Hamlet")] = some "Hamlet" ∧
    (answerEndpoint 10
        ⟨fun _ => Except.ok [1], true,
          [⟨1, "first passage", [2], "Hamlet", "Act 1", "Scene 1", 1, 1⟩,
           ⟨2, "second passage", [5], "Macbeth", "Act 2", "Scene 2", 2, 1⟩],
          fun _ _ => Except.ok "an answer"⟩
        ⟨"q", some 5, [("play", "Hamlet")]⟩).1.status = 200 ∧
    ∃ body : AnswerResponse,
      (answerEndpoint 10
        ⟨fun _ => Except.ok [1], true,
          [⟨1, "first passage", [2], "Hamlet", "Act 1", "Scene 1", 1, 1⟩,
           ⟨2, "second passage", [5], "Macbeth", "Act 2", "Scene 2", 2, 1⟩],
          fun _ _ => Except.ok "an answer"⟩
        ⟨"q", some 5, [("play", "Hamlet")]⟩).1.body = some body ∧
      (∀ s ∈ body.sources, s.play = "Hamlet") ∧
      body.sources.length =
        min (effK ⟨"q", some 5, [("play", "Hamlet")]⟩).toNat
          (([⟨1, "first passage", [2], "Hamlet", "Act 1", "Scene 1", 1, 1⟩,
             ⟨2, "second passage", [5], "Macbeth", "Act 2", "Scene 2", 2, 1⟩] :
              List ChunkRecord).filter (matchesFilter (some "Hamlet"))).length :=
  ⟨by decide, by decide, c3_filter_correctness 10 _ _ "Hamlet" (by decide) (by decide)⟩

theorem validationError_none_bounds {kCeil : Int} {req : AnswerRequest}
    (h : validationError kCeil req = none) :
    0 < effK req ∧ effK req ≤ kCeil := by
  unfold validationError at h
  split_ifs at h with h1 h2 h3
  exact ⟨by omega, by omega⟩

theorem validationError_isSome_of_bad_k {kCeil : Int} {req : AnswerRequest}
    (h : effK req ≤ 0 ∨ kCeil < effK req) :
    ∃ msg, validationError kCeil req = some msg := by
  unfold validationError
  split_ifs with h1 h2 h3
  · exact ⟨_, rfl⟩
  · exact ⟨_, rfl⟩
  · exact ⟨_, rfl⟩
  · rcases h with h | h
    · exact absurd h h2
    · exact absurd h h3

theorem answerEndpoint_of_validationError {kCeil : Int} {o : Oracles}
    {req : AnswerRequest} {msg : String}
    (h : validationError kCeil req = some msg) :
    answerEndpoint kCeil o req = (⟨422, none, msg⟩, ⟨0, 0⟩) := by
  unfold answerEndpoint
  rw [h]

/-- C4: a request whose effective k is zero or negative, or above the
configured ceiling, is rejected with a validation status before any
embedding call is made; and every returned body has at most effective k
sources. -/
theorem c4_k_bound (kCeil : Int) (o : Oracles) (req : AnswerRequest) :
    ((effK req ≤ 0 ∨ kCeil < effK req) →
      400 ≤ (answerEndpoint kCeil o req).1.status ∧
      (answerEndpoint kCeil o req).1.status < 500 ∧
      (answerEndpoint kCeil o req).2.embedCalls = 0) ∧
    ((answerEndpoint kCeil o req).1.status = 200 →
      ∀ body : AnswerResponse,
        (answerEndpoint kCeil o req).1.body = some body →
        (body.sources.length : Int) ≤ effK req) := by
  constructor
  · intro hk
    obtain ⟨msg, hmsg⟩ := validationError_isSome_of_bad_k hk
    rw [answerEndpoint_of_validationError hmsg]
    exact ⟨by norm_num, by norm_num, rfl⟩
  · intro h200 body hbody
    obtain ⟨v, hval, hemb, hup, heq⟩ := answerEndpoint_status_200 h200
    obtain ⟨hkpos, hkle⟩ := validationError_none_bounds hval
    rw [heq] at h200 hbody
    rcases synthesizeStep_status_200 h200 with ⟨hres, hbody2⟩ |
      ⟨hne, ans, hg, hbody2⟩
    · rw [hbody2] at hbody
      obtain rfl := Option.some.inj hbody
      simp only [List.length_nil, Int.natCast_zero]
      omega
    · rw [hbody2] at hbody
      obtain rfl := Option.some.inj hbody
      show ((mkSources _).length : Int) ≤ effK req
      rw [mkSources, mkSourcesFrom_length, indexQuery_length]
      have hmin : min (effK req).toNat
          (o.store.filter (matchesFilter (playFilter req.filters))).length ≤
          (effK req).toNat := Nat.min_le_left _ _
      omega

/-- Witness for C4: a concrete rejected request with k equal to 0, and a
concrete accepted request with k equal to 5 over a one-chunk store. -/
theorem c4_k_bound_witness :
    (effK ⟨"q", some 0, []⟩ ≤ 0 ∨ (10 : Int) < effK ⟨"q", some 0, []⟩) ∧
    400 ≤ (answerEndpoint 10
        ⟨fun _ => Except.ok [1], true,
          [⟨1, "first passage", [2], "Hamlet", "Act 1", "Scene 1", 1, 1⟩],
          fun _ _ => Except.ok "an answer"⟩
        ⟨"q", some 0, []⟩).1.status ∧
    (answerEndpoint 10
        ⟨fun _ => Except.ok [1], true,
          [⟨1, "first passage", [2], "Hamlet", "Act 1", "Scene 1", 1, 1⟩],
          fun _ _ => Except.ok "an answer"⟩
        ⟨"q", some 0, []⟩).2.embedCalls = 0 ∧
    ∀ body : AnswerResponse,
      (answerEndpoint 10
        ⟨fun _ => Except.ok [1], true,
          [⟨1, "first passage", [2], "Hamlet", "Act 1", "Scene 1", 1, 1⟩,
           ⟨2, "second passage", [5], "Macbeth", "Act 2", "Scene 2", 2, 1⟩],
          fun _ _ => Except.ok "an answer"⟩
        ⟨"q", some 5, []⟩).1.body = some body →
      (body.sources.length : Int) ≤ effK ⟨"q", some 5, []⟩ :=
  ⟨by decide,
   ((c4_k_bound 10
      ⟨fun _ => Except.ok [1], true,
        [⟨1, "first passage", [2], "Hamlet", "Act 1", "Scene 1", 1, 1⟩],
        fun _ _ => Except.ok "an answer"⟩
      ⟨"q", some 0, []⟩).1 (by decide)).1,
   ((c4_k_bound 10
      ⟨fun _ => Except.ok [1], true,
        [⟨1, "first passage", [2], "Hamlet", "Act 1", "Scene 1", 1, 1⟩],
        fun _ _ => Except.ok "an answer"⟩
      ⟨"q", some 0, []⟩).1 (by decide)).2.2,
   (c4_k_bound 10
      ⟨fun _ => Except.ok [1], true,
        [⟨1, "first passage", [2], "Hamlet", "Act 1", "Scene 1", 1, 1⟩,
         ⟨2, "second passage", [5], "Macbeth", "Act 2", "Scene 2", 2, 1⟩],
        fun _ _ => Except.ok "an answer"⟩
      ⟨"q", some 5, []⟩).2 (by decide)⟩

/-- C5: a query whose filter matches zero stored chunks yields the fixed
no-context answer with an empty sources list and status 200, with no call
made to the generation model. -/
theorem c5_empty_result_terminal (kCeil : Int) (o : Oracles)
    (req : AnswerRequest) (v : List Int)
    (hval : validationError kCeil req = none)
    (hemb : o.embed req.question = Except.ok v)
    (hup : o.indexUp = true)
    (hempty : o.store.filter (matchesFilter (playFilter req.filters)) = []) :
    (answerEndpoint kCeil o req).1 = ⟨200, some ⟨noContextAnswer, []⟩, ""⟩ ∧
    (answerEndpoint kCeil o req).2.genCalls = 0 := by
  have hq : indexQuery o.store v (effK req).toNat (playFilter req.filters) = [] :=
    indexQuery_of_filter_empty hempty _ _
  unfold answerEndpoint
  rw [hval, hemb, hup]
  constructor
  · show (synthesizeStep o.generate req.question
      (indexQuery o.store v (effK req).toNat (playFilter req.filters))).1 = _
    rw [hq]
    exact rfl
  · show (synthesizeStep o.generate req.question
      (indexQuery o.store v (effK req).toNat (playFilter req.filters))).2.genCalls = 0
    rw [hq]
    exact rfl

/-- Witness for C5: a concrete query filtered to a play absent from the
store. -/
theorem c5_empty_result_terminal_witness :
    (answerEndpoint 10
        ⟨fun _ => Except.ok [1], true,
          [⟨1, "first passage", [2], "Hamlet", "Act 1", "Scene 1", 1, 1⟩],
          fun _ _ => Except.ok "an answer"⟩
        ⟨"q", some 3, [("play", "Macbeth")]⟩).1 =
      ⟨200, some ⟨noContextAnswer, []⟩, ""⟩ ∧
    (answerEndpoint 10
        ⟨fun _ => Except.ok [1], true,
          [⟨1, "first passage", [2], "Hamlet", "Act 1", "Scene 1", 1, 1⟩],
          fun _ _ => Except.ok "an answer"⟩
        ⟨"q", some 3, [("play", "Macbeth")]⟩).2.genCalls = 0 :=
  c5_empty_result_terminal 10 _ _ [1] (by decide) rfl rfl (by decide)

theorem append_ne_empty_left {s t : String} (h : s ≠ "") : s ++ t ≠ "" := by
  intro he
  apply h
  have hlen := congrArg String.length he
  rw [String.length_append] at hlen
  have hz : s.length = 0 := by
    have : ("" : String).length = 0 := rfl
    omega
  cases s with
  | mk data =>
    cases data with
    | nil => rfl
    | cons c cs => simp [String.length] at hz

theorem validationError_msg_ne_empty {kCeil : Int} {req : AnswerRequest}
    {msg : String} (h : validationError kCeil req = some msg) : msg ≠ "" := by
  unfold validationError at h
  split_ifs at h
  · obtain rfl := Option.some.inj h
    decide
  · obtain rfl := Option.some.inj h
    decide
  · obtain rfl := Option.some.inj h
    decide
  · cases hf : req.filters.find? (fun kv => !(validFilterKeys.contains kv.1)) with
    | none => rw [hf] at h; simp at h
    | some kv =>
      rw [hf] at h
      obtain rfl := Option.some.inj h
      exact append_ne_empty_left (by decide)

/-- C7: every validation failure is answered with status 422 carrying the
human-readable validation message, which is never empty; and every stage
failure after the retry budget, embedding, index or generation, is
answered with status 500. -/
theorem c7_error_statuses (kCeil : Int) (o : Oracles) (req : AnswerRequest) :
    (∀ msg, validationError kCeil req = some msg →
      (answerEndpoint kCeil o req).1.status = 422 ∧
      (answerEndpoint kCeil o req).1.detail = msg ∧ msg ≠ "") ∧
    (∀ e, o.embed req.question = Except.error e →
      validationError kCeil req = none →
      (answerEndpoint kCeil o req).1.status = 500) ∧
    (∀ v, o.embed req.question = Except.ok v →
      validationError kCeil req = none → o.indexUp = false →
      (answerEndpoint kCeil o req).1.status = 500) ∧
    (∀ v e, o.embed req.question = Except.ok v →
      validationError kCeil req = none → o.indexUp = true →
      indexQuery o.store v (effK req).toNat (playFilter req.filters) ≠ [] →
      o.generate
          (assembleContext
            (indexQuery o.store v (effK req).toNat (playFilter req.filters)))
          req.question = Except.error e →
      (answerEndpoint kCeil o req).1.status = 500) := by
  refine ⟨?_, ?_, ?_, ?_⟩
  · intro msg hmsg
    rw [answerEndpoint_of_validationError hmsg]
    exact ⟨rfl, rfl, validationError_msg_ne_empty hmsg⟩
  · intro e hemb hval
    unfold answerEndpoint
    rw [hval, hemb]
  · intro v hemb hval hup
    unfold answerEndpoint
    rw [hval, hemb, hup]
    exact rfl
  · intro v e hemb hval hup hne hg
    unfold answerEndpoint
    rw [hval, hemb, hup]
    show (synthesizeStep o.generate req.question
      (indexQuery o.store v (effK req).toNat (playFilter req.filters))).1.status = 500
    cases hres : indexQuery o.store v (effK req).toNat (playFilter req.filters) with
    | nil => exact absurd hres hne
    | cons r rs =>
      rw [hres] at hg
      unfold synthesizeStep
      rw [hg]

/-- Witness for C7: a concrete empty-question rejection and a concrete
embedding-stage failure. -/
theorem c7_error_statuses_witness :
    validationError 10 ⟨"", some 3, []⟩ = some "question must be a non-empty string" ∧
    (answerEndpoint 10
        ⟨fun _ => Except.ok [1], true, [], fun _ _ => Except.ok "an answer"⟩
        ⟨"", some 3, []⟩).1.status = 422 ∧
    (answerEndpoint 10
        ⟨fun _ => Except.error (), true, [], fun _ _ => Except.ok "an answer"⟩
        ⟨"q", some 3, []⟩).1.status = 500 :=
  ⟨by decide,
   ((c7_error_statuses 10
      ⟨fun _ => Except.ok [1], true, [], fun _ _ => Except.ok "an answer"⟩
      ⟨"", some 3, []⟩).1 "question must be a non-empty string" (by decide)).1,
   (c7_error_statuses 10
      ⟨fun _ => Except.error (), true, [], fun _ _ => Except.ok "an answer"⟩
      ⟨"q", some 3, []⟩).2.1 () rfl (by decide)⟩

theorem eq_of_pairwise_perm_nodup_keys {α κ : Type} (key : α → κ)
    (le : α → α → Prop)
    (anti : ∀ a b, le a b → le b a → key a = key b) :
    ∀ {l₁ l₂ : List α}, l₁.Perm l₂ → l₁.Pairwise le → l₂.Pairwise le →
      (l₁.map key).Nodup → l₁ = l₂ := by
  intro l₁
  induction l₁ with
  | nil =>
    intro l₂ hp _ _ _
    exact hp.nil_eq
  | cons a t ih =>
    intro l₂ hp hs₁ hs₂ hnd
    have ha : a ∈ l₂ := hp.subset (List.mem_cons_self _ _)
    obtain ⟨u, w, rfl⟩ := List.append_of_mem ha
    have hu : u = [] := by
      cases u with
      | nil => rfl
      | cons b ub =>
        exfalso
        have htp : t.Perm (b :: ub ++ w) :=
          (List.perm_cons a).mp (hp.trans List.perm_middle)
        have hbt : b ∈ t := htp.symm.subset (by simp)
        have hab : le a b := (List.pairwise_cons.mp hs₁).1 b hbt
        have hs₂' : (b :: (ub ++ a :: w)).Pairwise le := by simpa using hs₂
        have hba : le b a := (List.pairwise_cons.mp hs₂').1 a (by simp)
        have hk : key a = key b := anti a b hab hba
        rw [List.map_cons, List.nodup_cons] at hnd
        exact hnd.1 (by rw [hk]; exact List.mem_map_of_mem key hbt)
    subst hu
    simp only [List.nil_append] at hp hs₂ ⊢
    have htw : t.Perm w := (List.perm_cons a).mp hp
    rw [List.map_cons, List.nodup_cons] at hnd
    rw [ih htw (List.pairwise_cons.mp hs₁).2 (List.pairwise_cons.mp hs₂).2 hnd.2]

theorem indexQuery_perm_invariant {s₁ s₂ : List ChunkRecord}
    (hperm : s₁.Perm s₂) (hnd : (s₁.map ChunkRecord.id).Nodup)
    (v : List Int) (k : Nat) (f : Option String) :
    indexQuery s₁ v k f = indexQuery s₂ v k f := by
  unfold indexQuery
  congr 1
  apply eq_of_pairwise_perm_nodup_keys
    (fun r : RetrievedResult => r.chunk.id) rankBefore
    (fun a b hab hba => rankBefore_antisymm_id hab hba)
  · exact ((List.perm_insertionSort _ _).trans ((hperm.filter _).map _)).trans
      (List.perm_insertionSort _ _).symm
  · exact List.sorted_insertionSort _ _
  · exact List.sorted_insertionSort _ _
  · have h1 : ((List.insertionSort rankBefore
        ((s₁.filter (matchesFilter f)).map (scoreChunk v))).map
          (fun r : RetrievedResult => r.chunk.id)).Perm
        (((s₁.filter (matchesFilter f)).map (scoreChunk v)).map
          (fun r : RetrievedResult => r.chunk.id)) :=
      (List.perm_insertionSort _ _).map _
    rw [h1.nodup_iff, List.map_map]
    have h2 : ((fun r : RetrievedResult => r.chunk.id) ∘ scoreChunk v) =
        ChunkRecord.id := rfl
    rw [h2]
    exact hnd.sublist ((List.filter_sublist s₁).map ChunkRecord.id)

/-- C8: retrieval and answering are deterministic given fixed oracle
responses: two backends whose stores hold the same chunks, in any
enumeration order, with distinct chunk ids, answer every request
identically, sources ordering included. -/
theorem c8_determinism (kCeil : Int) (o₁ o₂ : Oracles) (req : AnswerRequest)
    (hstore : o₁.store.Perm o₂.store)
    (hnd : (o₁.store.map ChunkRecord.id).Nodup)
    (hemb : o₁.embed = o₂.embed)
    (hup : o₁.indexUp = o₂.indexUp)
    (hgen : o₁.generate = o₂.generate) :
    answerEndpoint kCeil o₁ req = answerEndpoint kCeil o₂ req := by
  unfold answerEndpoint
  rw [hemb, hup, hgen]
  cases hval : validationError kCeil req with
  | some msg => exact rfl
  | none =>
    cases hembq : o₂.embed req.question with
    | error e => exact rfl
    | ok v =>
      cases hupq : o₂.indexUp with
      | false => exact rfl
      | true =>
        show synthesizeStep o₂.generate req.question
            (indexQuery o₁.store v (effK req).toNat (playFilter req.filters)) =
          synthesizeStep o₂.generate req.question
            (indexQuery o₂.store v (effK req).toNat (playFilter req.filters))
        rw [indexQuery_perm_invariant hstore hnd]

/-- Witness for C8: the same two-chunk corpus ingested in two different
orders answers a concrete request identically. -/
theorem c8_determinism_witness :
    answerEndpoint 10
      ⟨fun _ => Except.ok [1], true,
        [⟨1, "first passage", [2], "Hamlet", "Act 1", "Scene 1", 1, 1⟩,
         ⟨2, "second passage", [5], "Macbeth", "Act 2", "Scene 2", 2, 1⟩],
        fun _ _ => Except.ok "an answer"⟩
      ⟨"q", some 2, []⟩ =
    answerEndpoint 10
      ⟨fun _ => Except.ok [1], true,
        [⟨2, "second passage", [5], "Macbeth", "Act 2", "Scene 2", 2, 1⟩,
         ⟨1, "first passage", [2], "Hamlet", "Act 1", "Scene 1", 1, 1⟩],
        fun _ _ => Except.ok "an answer"⟩
      ⟨"q", some 2, []⟩ :=
  c8_determinism 10 _ _ _ (by decide) (by decide) rfl rfl rfl

/-- C6 counterexample: the claim that the filter-choice list used by the
caller is the ingestion-derived GET /plays snapshot fails at the concrete
empty corpus: the frontend shows its constant 38-play list no matter what
was ingested. -/
theorem c6_counterexample : filteredPlays false ≠ getPlays [] := by
  intro h
  have : plays = [] := h
  simp [plays] at this

/-- C6 amended: GET /plays, modelled from the spec, is an ingestion-derived
read-only snapshot, but the frontend caller populates its filter choices
from its own hand-maintained constant plays list and only ever issues POST
/answer requests, never GET /plays. -/
theorem c6_plays_hand_maintained :
    filteredPlays false = plays ∧
    (∀ question selectedPlay outcome st r,
      (askQuestion question selectedPlay outcome st).2 = some r →
      r.method = "POST" ∧ r.path = "/answer") ∧
    (∀ ingested : List Play, ∀ p, p ∈ getPlays ingested ↔ p ∈ ingested) := by
  refine ⟨rfl, ?_, ?_⟩
  · intro question selectedPlay outcome st r h
    unfold askQuestion at h
    split_ifs at h with ht
    cases outcome with
    | ok data =>
      obtain rfl := Option.some.inj h
      exact ⟨rfl, rfl⟩
    | err e =>
      obtain rfl := Option.some.inj h
      exact ⟨rfl, rfl⟩
  · intro ingested p
    exact List.mem_dedup

/-- Witness for the amended C6: the request issued by a concrete
askQuestion invocation is a POST to /answer. -/
theorem c6_plays_hand_maintained_witness :
    (askQuestion "q" none (ApiOutcome.err ApiError.request)
        ⟨"", [], false, ""⟩).2 =
      some ⟨"POST", "/answer", requestPayload "q" none⟩ ∧
    (⟨"POST", "/answer", requestPayload "q" none⟩ : HttpRequest).method =
      "POST" ∧
    (⟨"POST", "/answer", requestPayload "q" none⟩ : HttpRequest).path =
      "/answer" :=
  ⟨by decide,
   c6_plays_hand_maintained.2.1 "q" none (ApiOutcome.err ApiError.request)
     ⟨"", [], false, ""⟩ ⟨"POST", "/answer", requestPayload "q" none⟩
     (by decide)⟩

/-- C9: with the toggle off, filteredPlays is the full plays list; with it
on, filteredPlays is exactly the plays of category Tragedy, kept in the
original list order. -/
theorem c9_filtered_plays :
    filteredPlays false = plays ∧
    (filteredPlays true).Sublist plays ∧
    (∀ p ∈ filteredPlays true, p.category = "Tragedy") ∧
    (∀ p ∈ plays, p.category = "Tragedy" → p ∈ filteredPlays true) := by
  refine ⟨rfl, ?_, ?_, ?_⟩
  · show (plays.filter (fun play => play.category == "Tragedy")).Sublist plays
    exact List.filter_sublist plays
  · intro p hp
    have hmem := List.of_mem_filter hp
    simpa using hmem
  · intro p hp hcat
    apply List.mem_filter.mpr
    exact ⟨hp, by simp [hcat]⟩

/-- Witness for C9: Hamlet is a tragedy of the plays list and appears in
the toggled list. -/
theorem c9_filtered_plays_witness :
    (⟨"Hamlet", "Tragedy"⟩ : Play) ∈ plays ∧
    (⟨"Hamlet", "Tragedy"⟩ : Play) ∈ filteredPlays true :=
  ⟨by decide, c9_filtered_plays.2.2.2 ⟨"Hamlet", "Tragedy"⟩ (by decide) rfl⟩

theorem errorMessage_ne_empty (e : ApiError) : errorMessage e ≠ "" := by
  cases e with
  | response detail statusText =>
    show "Server Error: " ++ orFallback detail statusText ≠ ""
    exact append_ne_empty_left (by decide)
  | request => decide
  | other message =>
    show "Error: " ++ orFallback message "An unexpected error occurred." ≠ ""
    exact append_ne_empty_left (by decide)

/-- C10: an askQuestion invocation with an empty trimmed question issues
no request and leaves the state unchanged; with a non-empty question whose
request throws, the final state has an empty answer, an empty sources
list, a non-empty error message and loading false. -/
theorem c10_ask_question_errors (question : String)
    (selectedPlay : Option Play) (outcome : ApiOutcome) (st : UiState) :
    (jsTrim question = "" →
      askQuestion question selectedPlay outcome st = (st, none)) ∧
    (jsTrim question ≠ "" → ∀ e, outcome = ApiOutcome.err e →
      (askQuestion question selectedPlay outcome st).1 =
        ⟨"", [], false, errorMessage e⟩ ∧
      errorMessage e ≠ "") := by
  constructor
  · intro ht
    unfold askQuestion
    rw [if_pos ht]
  · intro ht e houtcome
    subst houtcome
    unfold askQuestion
    rw [if_neg ht]
    exact ⟨rfl, errorMessage_ne_empty e⟩

/-- Witness for C10: a concrete blank question is a no-op, and a concrete
network failure yields the cleared state with the network error message. -/
theorem c10_ask_question_errors_witness :
    askQuestion "  " none (ApiOutcome.ok ⟨"a", []⟩) ⟨"x", [], true, "y"⟩ =
      (⟨"x", [], true, "y"⟩, none) ∧
    (askQuestion "q" none (ApiOutcome.err ApiError.request)
        ⟨"x", [], true, "y"⟩).1 =
      ⟨"", [], false, errorMessage ApiError.request⟩ ∧
    errorMessage ApiError.request ≠ "" :=
  ⟨(c10_ask_question_errors "  " none (ApiOutcome.ok ⟨"a", []⟩)
      ⟨"x", [], true, "y"⟩).1 (by decide),
   (c10_ask_question_errors "q" none (ApiOutcome.err ApiError.request)
      ⟨"x", [], true, "y"⟩).2 (by decide) ApiError.request rfl⟩

end ShakespeareGPT
